import Mathlib

/-!
Shallow embedding of `scripts/download-python.js`: a provisioning script that
resolves a platform key against a static table, downloads an archive over
HTTPS (following 301/302 redirects), extracts it (tar.gz or zip) into
`resources/python/<key>/python`, and deletes the archive.

The network is modelled as an oracle `Server : String → HttpResponse`; the
redirect recursion of the JS `download` is rendered with an explicit fuel
parameter whose exhaustion (`DLOutcome.diverge`) marks non-termination.
The filesystem is a pair of path lists (directories and files).  The
third-party extraction libraries (`tar`, `adm-zip`) can fail with arbitrary
I/O errors, so their outcome is an oracle `Except String Unit` in the
environment; the content-level behaviour of `tar.extract {strip: 1}` is
modelled separately for the extraction-content claim.
-/

/-- Version constants from the head of the script. -/
def PYTHON_VERSION : String := "3.11.9+20240726"

def RELEASE_TAG : String := "20240726"

def PYTHON_OFFICIAL_VERSION : String := "3.11.9"

/-- A download descriptor: `{url, type}` in the JS table. -/
structure PlatformConfig where
  url : String
  type : String
deriving DecidableEq, Repr

/-- The static `PLATFORMS` object, as an association list in declaration order. -/
def PLATFORMS : List (String × PlatformConfig) :=
  [ ("darwin-arm64",
      ⟨"https://github.com/indygreg/python-build-standalone/releases/download/" ++ RELEASE_TAG ++
        "/cpython-" ++ PYTHON_VERSION ++ "-aarch64-apple-darwin-install_only.tar.gz", "tar.gz"⟩),
    ("darwin-x64",
      ⟨"https://github.com/indygreg/python-build-standalone/releases/download/" ++ RELEASE_TAG ++
        "/cpython-" ++ PYTHON_VERSION ++ "-x86_64-apple-darwin-install_only.tar.gz", "tar.gz"⟩),
    ("linux-x64",
      ⟨"https://github.com/indygreg/python-build-standalone/releases/download/" ++ RELEASE_TAG ++
        "/cpython-" ++ PYTHON_VERSION ++ "-x86_64-unknown-linux-gnu-install_only.tar.gz", "tar.gz"⟩),
    ("linux-arm64",
      ⟨"https://github.com/indygreg/python-build-standalone/releases/download/" ++ RELEASE_TAG ++
        "/cpython-" ++ PYTHON_VERSION ++ "-aarch64-unknown-linux-gnu-install_only.tar.gz", "tar.gz"⟩),
    ("win32-x64",
      ⟨"https://github.com/indygreg/python-build-standalone/releases/download/" ++ RELEASE_TAG ++
        "/cpython-" ++ PYTHON_VERSION ++ "-x86_64-pc-windows-msvc-shared-install_only.tar.gz", "tar.gz"⟩),
    ("win32-arm64",
      ⟨"https://www.python.org/ftp/python/" ++ PYTHON_OFFICIAL_VERSION ++
        "/python-" ++ PYTHON_OFFICIAL_VERSION ++ "-embed-arm64.zip", "zip"⟩) ]

/-- JS object indexing `PLATFORMS[platformKey]`. -/
def lookupPlatform (key : String) : Option PlatformConfig :=
  (PLATFORMS.find? (fun p => p.1 == key)).map (fun p => p.2)

/-- The JS `getPlatformKey`: join `process.platform` and `process.arch` with a dash. -/
def getPlatformKey (platform arch : String) : String := platform ++ "-" ++ arch

/-- An HTTP response as the script observes it: a status code, the optional
`Location` header, the optional `Content-Length` header, and the body as a
list of chunk lengths (only lengths matter to the script's progress logic). -/
structure HttpResponse where
  statusCode : Nat
  location : Option String
  contentLength : Option Nat
  body : List Nat
deriving DecidableEq, Repr

/-- A server oracle: what response a GET to each URL returns. -/
def Server : Type := String → HttpResponse

/-- Errors the `download` function can reject with.  `status c` carries the
non-200, non-redirect status code; `invalidLocation` models the `TypeError`
that `https.get(undefined)` raises when a redirect response has no
`Location` header. -/
inductive DLError where
  | status (code : Nat)
  | invalidLocation
deriving DecidableEq, Repr

/-- The rejection message: `Download failed with status ${statusCode}` in the
script; the `invalidLocation` message stands for Node's `ERR_INVALID_ARG_TYPE`
TypeError text. -/
def DLError.message : DLError → String
  | .status code => "Download failed with status " ++ toString code
  | .invalidLocation => "ERR_INVALID_ARG_TYPE"

/-- Outcome of a `download` call under a given fuel: resolved, rejected, or
fuel exhausted (the JS recursion still running). -/
inductive DLOutcome where
  | ok
  | err (e : DLError)
  | diverge
deriving DecidableEq, Repr

/-- Observable trace of one `download` call: the URLs requested (in order),
the progress lines written to stdout — one `(downloadedBytes, totalBytes)`
pair per received chunk, where `totalBytes = none` when the response has no
`Content-Length` and the JS `parseInt` yields `NaN`, so the written line
reads `Downloading: NaN%` — whether the destination file was written, and
the outcome. -/
structure DLTrace where
  requests : List String
  progress : List (Nat × Option Nat)
  written : Bool
  outcome : DLOutcome
deriving DecidableEq, Repr

/-- Cumulative progress events for a streamed body: the `data` handler adds
each chunk length to `downloadedBytes` and writes a progress line
unconditionally. -/
def progressAux (total : Option Nat) (acc : Nat) : List Nat → List (Nat × Option Nat)
  | [] => []
  | c :: rest => (acc + c, total) :: progressAux total (acc + c) rest

def progressOf (total : Option Nat) (body : List Nat) : List (Nat × Option Nat) :=
  progressAux total 0 body

/-- The JS `download(url, dest)` with explicit fuel for the redirect
recursion.  Mirrors the source: a 302/301 response re-issues the request
against `response.headers.location`; any other non-200 status rejects with
the status code; a 200 response streams the body to the destination file,
emitting a progress line per chunk. -/
def download (server : Server) : Nat → String → DLTrace
  | 0, _ => ⟨[], [], false, .diverge⟩
  | fuel + 1, url =>
    let r := server url
    if r.statusCode == 302 || r.statusCode == 301 then
      match r.location with
      | some loc =>
        let t := download server fuel loc
        ⟨url :: t.requests, t.progress, t.written, t.outcome⟩
      | none => ⟨[url], [], false, .err .invalidLocation⟩
    else if r.statusCode != 200 then
      ⟨[url], [], false, .err (.status r.statusCode)⟩
    else
      ⟨[url], progressOf r.contentLength r.body, true, .ok⟩

/-- The filesystem, abstracted to the paths the script touches: which
directories exist and which files exist. -/
structure FS where
  dirs : List String
  files : List String
deriving DecidableEq, Repr

/-- Errors `downloadAndSetup` can throw to the top-level `.catch` handler. -/
inductive SetupError where
  | downloadFailed (e : DLError)
  | extractFailed (msg : String)
  | unsupportedArchive (t : String)
deriving DecidableEq, Repr

/-- How one invocation ends: normal return (process exits 0), the
`process.exit(1)` of the unsupported-platform branch, a rejection reaching
the top-level `.catch` (which prints and exits 1), or the download recursion
still running when the fuel ran out. -/
inductive RunOutcome where
  | success
  | unsupportedPlatform
  | failure (e : SetupError)
  | diverged
deriving DecidableEq, Repr

def RunOutcome.exitCode : RunOutcome → Option Nat
  | .success => some 0
  | .unsupportedPlatform => some 1
  | .failure _ => some 1
  | .diverged => none

/-- Environment for one run: the network oracle, the fuel bounding the
redirect recursion we are willing to observe, and the outcome of the
third-party extraction library call (`tar.extract` / `zip.extractAllTo`),
which can fail with an arbitrary I/O error. -/
structure Env where
  server : Server
  fuel : Nat
  extractResult : Except String Unit

/-- Observable result of one `downloadAndSetup` invocation. -/
structure RunResult where
  fs : FS
  requests : List String
  progress : List (Nat × Option Nat)
  stdout : List String
  stderr : List String
  outcome : RunOutcome
deriving Repr

/-- The script's `path.join(__dirname, '..', 'resources', 'python', platformKey)`,
with paths taken relative to the repository root. -/
def resourcesDirOf (key : String) : String := "resources/python/" ++ key

/-- The destination extraction directory `path.join(resourcesDir, 'python')`. -/
def pythonDirOf (key : String) : String := resourcesDirOf key ++ "/python"

/-- The JS `path.basename(url)`: the component after the last slash. -/
def basename (url : String) : String := (url.splitOn "/").getLastD ""

/-- The transient archive path `path.join(resourcesDir, filename)`. -/
def archivePathOf (key url : String) : String :=
  resourcesDirOf key ++ "/" ++ basename url

/-- The `Object.keys(PLATFORMS).join(', ')` of the unsupported-platform
diagnostic. -/
def supportedKeys : String := String.intercalate ", " (PLATFORMS.map (fun p => p.1))

/-- The JS `downloadAndSetup(platformKey)` as a function from the environment
and the initial filesystem to the observable run result.  Mirrors the source
top to bottom: table lookup, skip-if-present check on the destination
directory, `mkdir -p resourcesDir`, download, dispatch on the archive type
(each extractor first `mkdir -p` of the destination, then the library call),
and `unlink` of the archive on success. -/
def downloadAndSetup (key : String) (env : Env) (fs : FS) : RunResult :=
  match lookupPlatform key with
  | none =>
    { fs := fs, requests := [], progress := [], stdout := [],
      stderr := ["Unsupported platform: " ++ key,
                 "Supported platforms: " ++ supportedKeys],
      outcome := .unsupportedPlatform }
  | some cfg =>
    let resourcesDir := resourcesDirOf key
    let pythonDir := pythonDirOf key
    let archivePath := archivePathOf key cfg.url
    if pythonDir ∈ fs.dirs then
      { fs := fs, requests := [], progress := [],
        stdout := ["Python already exists at " ++ pythonDir], stderr := [],
        outcome := .success }
    else
      let headerOut := ["Downloading Python for " ++ key ++ "...",
                        "URL: " ++ cfg.url, "Type: " ++ cfg.type]
      let fs1 : FS := { fs with dirs := resourcesDir :: fs.dirs }
      let t := download env.server env.fuel cfg.url
      match t.outcome with
      | .diverge =>
        { fs := fs1, requests := t.requests, progress := t.progress,
          stdout := headerOut, stderr := [], outcome := .diverged }
      | .err e =>
        { fs := fs1, requests := t.requests, progress := t.progress,
          stdout := headerOut,
          stderr := ["❌ Setup failed: " ++ e.message],
          outcome := .failure (.downloadFailed e) }
      | .ok =>
        let fs2 : FS := { fs1 with files := archivePath :: fs1.files }
        let out1 := headerOut ++ ["Download completed!"]
        let runExtract := fun (label : String) =>
          let fs3 : FS := { fs2 with dirs := pythonDir :: fs2.dirs }
          let out2 := out1 ++ ["Extracting " ++ label ++ " to " ++ pythonDir ++ "..."]
          match env.extractResult with
          | .error m =>
            ({ fs := fs3, requests := t.requests, progress := t.progress,
               stdout := out2, stderr := ["❌ Setup failed: " ++ m],
               outcome := .failure (.extractFailed m) } : RunResult)
          | .ok _ =>
            ({ fs := { fs3 with files := fs3.files.erase archivePath },
               requests := t.requests, progress := t.progress,
               stdout := out2 ++ ["Extraction completed!",
                                  "Cleaned up " ++ cfg.type ++ " file",
                                  "✅ Python setup completed at: " ++ pythonDir],
               stderr := [], outcome := .success } : RunResult)
        if cfg.type == "tar.gz" then runExtract "tar.gz"
        else if cfg.type == "zip" then runExtract "zip"
        else
          { fs := fs2, requests := t.requests, progress := t.progress,
            stdout := out1,
            stderr := ["❌ Setup failed: Unsupported archive type: " ++ cfg.type],
            outcome := .failure (.unsupportedArchive cfg.type) }

/-- An entry of a tar archive: a path given as components, and its content
(abstracted to a tag). -/
structure TarEntry where
  path : List String
  data : Nat
deriving DecidableEq, Repr

/-- Modelled from the spec: the `tar.extract({file, cwd: destDir, strip: 1})`
library call (the `tar` package is not part of this repository).  Per the
spec, unpacking proceeds "with the top-level directory component stripped":
each entry is placed under the destination at its path with the first
component removed, and an entry that consists of only the top-level
component itself yields no file in the destination. -/
def tarStrip1 (destDir : String) (archive : List TarEntry) : List String :=
  archive.filterMap (fun e =>
    match e.path with
    | [] => none
    | _ :: rest =>
      if rest = [] then none
      else some (destDir ++ "/" ++ String.intercalate "/" rest))

/-- The JS `extractTarGz(tarPath, destDir)` at the filesystem level: create
the destination directory recursively, then unpack the archive into it with
`strip: 1`. -/
def extractTarGz (fs : FS) (archive : List TarEntry) (destDir : String) : FS :=
  { dirs := destDir :: fs.dirs,
    files := tarStrip1 destDir archive ++ fs.files }

/-- Written from the spec's words, for comparison with `tarStrip1`: the
"contents of the archive's top-level directory `d`" — the entries lying
strictly below `d`, at their paths relative to `d`. -/
def topLevelContents (d : String) (archive : List TarEntry) : List (List String × Nat) :=
  archive.filterMap (fun e =>
    match e.path with
    | [] => none
    | x :: rest => if x = d ∧ rest ≠ [] then some (rest, e.data) else none)

/-- A redirect response the script will follow: status 302 or 301 with a
`Location` header present. -/
def isRedirect (r : HttpResponse) : Bool :=
  (r.statusCode == 302 || r.statusCode == 301) && r.location.isSome

/-- The URL the script follows out of a response (`headers.location`). -/
def nextUrl (server : Server) (url : String) : String :=
  ((server url).location).getD ""

/-- The n-th URL along the redirect chain from `url`. -/
def follow (server : Server) (url : String) : Nat → String
  | 0 => url
  | n + 1 => follow server (nextUrl server url) n

/-- A server answering every URL with an empty 200 response. -/
def idleServer : Server := fun _ => ⟨200, none, none, []⟩

/-- An environment whose download is never exercised. -/
def idleEnv : Env := ⟨idleServer, 0, .ok ()⟩

/-- A server answering every URL with a one-chunk 200 response carrying a
`Content-Length`. -/
def okServer : Server := fun _ => ⟨200, none, some 10, [10]⟩

/-- An environment in which download and extraction both succeed. -/
def okEnv : Env := ⟨okServer, 1, .ok ()⟩

/-- An environment in which the download succeeds and the extraction library
call fails. -/
def errEnv : Env := ⟨okServer, 1, .error "disk full"⟩

/-- A 200 server with a body but no `Content-Length` header. -/
def noLenServer : Server := fun _ => ⟨200, none, none, [5]⟩

/-- A 200 server with `Content-Length` and two chunks. -/
def lenServer : Server := fun _ => ⟨200, none, some 10, [4, 6]⟩

/-- A server that redirects every URL to itself. -/
def loopServer : Server := fun _ => ⟨302, some "https://loop", none, []⟩

/-- A server that redirects one URL and answers 200 elsewhere. -/
def twoStepServer : Server := fun u =>
  if u == "https://a" then ⟨302, some "https://b", none, []⟩
  else ⟨200, none, some 1, [1]⟩

/-- A server answering every URL with 503. -/
def err503Server : Server := fun _ => ⟨503, none, none, []⟩

/-- The `darwin-arm64` table entry. -/
def darwinArmCfg : PlatformConfig :=
  ⟨"https://github.com/indygreg/python-build-standalone/releases/download/" ++ RELEASE_TAG ++
    "/cpython-" ++ PYTHON_VERSION ++ "-aarch64-apple-darwin-install_only.tar.gz", "tar.gz"⟩

/-- The `darwin-x64` table entry. -/
def darwinX64Cfg : PlatformConfig :=
  ⟨"https://github.com/indygreg/python-build-standalone/releases/download/" ++ RELEASE_TAG ++
    "/cpython-" ++ PYTHON_VERSION ++ "-x86_64-apple-darwin-install_only.tar.gz", "tar.gz"⟩

/-- The `linux-x64` table entry. -/
def linuxCfg : PlatformConfig :=
  ⟨"https://github.com/indygreg/python-build-standalone/releases/download/" ++ RELEASE_TAG ++
    "/cpython-" ++ PYTHON_VERSION ++ "-x86_64-unknown-linux-gnu-install_only.tar.gz", "tar.gz"⟩

/-- Check for the spec's "well-formed https URL": the URL's characters
start with `https://`.  Stated over the character list, which the kernel
can evaluate (`String.startsWith` is byte-position based and opaque to
it). -/
def isHttpsUrl (s : String) : Bool := "https://".data.isPrefixOf s.data

/-- A fixture archive with one top-level directory `python`. -/
def sampleArchive : List TarEntry :=
  [⟨["python", "bin", "python3"], 1⟩,
   ⟨["python"], 2⟩,
   ⟨["python", "lib", "libpython.dylib"], 3⟩]

section Helpers

lemma lookup_type {key : String} {cfg : PlatformConfig}
    (hk : lookupPlatform key = some cfg) :
    cfg.type = "tar.gz" ∨ cfg.type = "zip" := by
  have hall : ∀ p ∈ PLATFORMS, p.2.type = "tar.gz" ∨ p.2.type = "zip" := by decide
  unfold lookupPlatform at hk
  cases hfind : PLATFORMS.find? (fun p => p.1 == key) with
  | none => rw [hfind] at hk; simp at hk
  | some p =>
    rw [hfind] at hk
    simp only [Option.map_some', Option.some.injEq] at hk
    subst hk
    exact hall p (List.mem_of_find?_eq_some hfind)

lemma skip_run_eq (key : String) (cfg : PlatformConfig) (env : Env) (fs : FS)
    (hk : lookupPlatform key = some cfg) (hdir : pythonDirOf key ∈ fs.dirs) :
    downloadAndSetup key env fs =
      ⟨fs, [], [], ["Python already exists at " ++ pythonDirOf key], [], .success⟩ := by
  simp [downloadAndSetup, hk, hdir]

lemma download_requests_head (server : Server) (fuel : Nat) (url : String) :
    (download server (fuel + 1) url).requests.head? = some url := by
  by_cases hb : ((server url).statusCode == 302 || (server url).statusCode == 301) = true
  · cases hloc : (server url).location with
    | none => simp [download, hb, hloc]
    | some loc => simp [download, hb, hloc]
  · by_cases h200 : ((server url).statusCode != 200) = true
    · simp [download, hb, h200]
    · simp [download, hb, h200]

lemma progressAux_length (total : Option Nat) (acc : Nat) (body : List Nat) :
    (progressAux total acc body).length = body.length := by
  induction body generalizing acc with
  | nil => simp [progressAux]
  | cons c rest ih => simp [progressAux, ih]

lemma progressAux_total (total : Option Nat) (acc : Nat) (body : List Nat) :
    ∀ e ∈ progressAux total acc body, e.2 = total := by
  induction body generalizing acc with
  | nil => simp [progressAux]
  | cons c rest ih =>
    intro e he
    rcases List.mem_cons.mp he with h | h
    · rw [h]
    · exact ih (acc + c) e h

lemma download_terminates_iff (server : Server) :
    ∀ (fuel : Nat) (url : String),
      (download server fuel url).outcome ≠ .diverge ↔
        ∃ n, n < fuel ∧ isRedirect (server (follow server url n)) = false := by
  intro fuel
  induction fuel with
  | zero => intro url; simp [download]
  | succ k ih =>
    intro url
    by_cases hr : isRedirect (server url) = true
    · have hr' : ((server url).statusCode = 302 ∨ (server url).statusCode = 301) ∧
          ((server url).location).isSome = true := by
        simpa [isRedirect] using hr
      have hb : ((server url).statusCode == 302 || (server url).statusCode == 301) = true := by
        rcases hr'.1 with h | h <;> simp [h]
      obtain ⟨loc, hloc⟩ := Option.isSome_iff_exists.mp hr'.2
      have hstep : download server (k + 1) url =
          ⟨url :: (download server k loc).requests, (download server k loc).progress,
           (download server k loc).written, (download server k loc).outcome⟩ := by
        simp [download, hb, hloc]
      have hnext : nextUrl server url = loc := by simp [nextUrl, hloc]
      rw [hstep]
      constructor
      · intro h
        obtain ⟨n, hn, hfalse⟩ := (ih loc).mp h
        refine ⟨n + 1, Nat.succ_lt_succ hn, ?_⟩
        simpa [follow, hnext] using hfalse
      · rintro ⟨n, hn, hfalse⟩
        cases n with
        | zero =>
          exfalso
          simp only [follow] at hfalse
          rw [hr] at hfalse
          exact Bool.noConfusion hfalse
        | succ m =>
          apply (ih loc).mpr
          refine ⟨m, Nat.lt_of_succ_lt_succ hn, ?_⟩
          simpa [follow, hnext] using hfalse
    · have hterm : (download server (k + 1) url).outcome ≠ .diverge := by
        by_cases hb : ((server url).statusCode == 302 || (server url).statusCode == 301) = true
        · have hl : ((server url).location).isSome = false := by
            rcases Bool.eq_false_or_eq_true (((server url).location).isSome) with h | h
            · exact absurd (by simp [isRedirect, hb, h]) hr
            · exact h
          have hloc : (server url).location = none :=
            Option.not_isSome_iff_eq_none.mp (by simp [hl])
          simp [download, hb, hloc]
        · by_cases h200 : ((server url).statusCode != 200) = true
          · simp [download, hb, h200]
          · simp [download, hb, h200]
      have hzero : isRedirect (server (follow server url 0)) = false :=
        Bool.eq_false_iff.mpr hr
      constructor
      · intro _
        exact ⟨0, Nat.succ_pos k, hzero⟩
      · intro _
        exact hterm

lemma run_ok_extract_error (key : String) (cfg : PlatformConfig) (env : Env) (fs : FS)
    (m : String) (hk : lookupPlatform key = some cfg)
    (hdir : pythonDirOf key ∉ fs.dirs)
    (hdl : (download env.server env.fuel cfg.url).outcome = .ok)
    (hex : env.extractResult = .error m) :
    downloadAndSetup key env fs =
      ⟨⟨pythonDirOf key :: resourcesDirOf key :: fs.dirs,
        archivePathOf key cfg.url :: fs.files⟩,
       (download env.server env.fuel cfg.url).requests,
       (download env.server env.fuel cfg.url).progress,
       ["Downloading Python for " ++ key ++ "...", "URL: " ++ cfg.url,
        "Type: " ++ cfg.type, "Download completed!",
        "Extracting " ++ cfg.type ++ " to " ++ pythonDirOf key ++ "..."],
       ["❌ Setup failed: " ++ m],
       .failure (.extractFailed m)⟩ := by
  rcases lookup_type hk with hty | hty <;>
    simp [downloadAndSetup, hk, hdir, hdl, hex, hty]

lemma run_ok_extract_ok (key : String) (cfg : PlatformConfig) (env : Env) (fs : FS)
    (hk : lookupPlatform key = some cfg)
    (hdir : pythonDirOf key ∉ fs.dirs)
    (hdl : (download env.server env.fuel cfg.url).outcome = .ok)
    (hex : env.extractResult = .ok ()) :
    downloadAndSetup key env fs =
      ⟨⟨pythonDirOf key :: resourcesDirOf key :: fs.dirs,
        (archivePathOf key cfg.url :: fs.files).erase (archivePathOf key cfg.url)⟩,
       (download env.server env.fuel cfg.url).requests,
       (download env.server env.fuel cfg.url).progress,
       ["Downloading Python for " ++ key ++ "...", "URL: " ++ cfg.url,
        "Type: " ++ cfg.type, "Download completed!",
        "Extracting " ++ cfg.type ++ " to " ++ pythonDirOf key ++ "...",
        "Extraction completed!", "Cleaned up " ++ cfg.type ++ " file",
        "✅ Python setup completed at: " ++ pythonDirOf key],
       [],
       .success⟩ := by
  rcases lookup_type hk with hty | hty <;>
    simp [downloadAndSetup, hk, hdir, hdl, hex, hty]

lemma tarStrip1_eq_topLevelContents (destDir d : String) (archive : List TarEntry)
    (h : ∀ e ∈ archive, e.path.head? = some d) :
    tarStrip1 destDir archive =
      (topLevelContents d archive).map
        (fun pc => destDir ++ "/" ++ String.intercalate "/" pc.1) := by
  induction archive with
  | nil => simp [tarStrip1, topLevelContents]
  | cons e rest ih =>
    have he : e.path.head? = some d := h e (List.mem_cons_self e rest)
    have hrest : ∀ x ∈ rest, x.path.head? = some d :=
      fun x hx => h x (List.mem_cons_of_mem e hx)
    cases hp : e.path with
    | nil => rw [hp] at he; simp at he
    | cons x xs =>
      have hx : x = d := by rw [hp] at he; simpa using he
      subst hx
      by_cases hxs : xs = []
      · simp [tarStrip1, topLevelContents, hp, hxs] at ih ⊢
        exact ih hrest
      · simp [tarStrip1, topLevelContents, hp, hxs] at ih ⊢
        exact ih hrest

end Helpers

/-! ## Claim theorems -/

/-- Claim C1, counterexample: the claim quantifies over every platform key,
but for a key without a `PLATFORMS` entry the unsupported-platform branch
runs first and exits 1 even though the destination extraction directory
already exists. -/
theorem downloadAndSetup_dir_exists_exit0_counterexample :
    pythonDirOf "plan9-x64" ∈ (FS.mk [pythonDirOf "plan9-x64"] []).dirs ∧
    (downloadAndSetup "plan9-x64" idleEnv
        (FS.mk [pythonDirOf "plan9-x64"] [])).outcome.exitCode ≠ some 0 := by
  decide

/-- Claim C1 (amended): for every platform key that has a `PLATFORMS` entry
and whose destination extraction directory already exists,
`downloadAndSetup` performs no network request and no filesystem
modification, reports that Python already exists, and the process exits
with code 0. -/
theorem downloadAndSetup_skip_when_present (key : String) (cfg : PlatformConfig)
    (env : Env) (fs : FS) (hk : lookupPlatform key = some cfg)
    (hdir : pythonDirOf key ∈ fs.dirs) :
    (downloadAndSetup key env fs).requests = [] ∧
    (downloadAndSetup key env fs).fs = fs ∧
    (downloadAndSetup key env fs).stdout =
      ["Python already exists at " ++ pythonDirOf key] ∧
    (downloadAndSetup key env fs).stderr = [] ∧
    (downloadAndSetup key env fs).outcome.exitCode = some 0 := by
  rw [skip_run_eq key cfg env fs hk hdir]
  exact ⟨rfl, rfl, rfl, rfl, rfl⟩

/-- Concrete instance of the amended C1 theorem at `darwin-arm64`. -/
theorem downloadAndSetup_skip_when_present_witness :
    lookupPlatform "darwin-arm64" = some darwinArmCfg ∧
    (downloadAndSetup "darwin-arm64" idleEnv
        (FS.mk [pythonDirOf "darwin-arm64"] [])).requests = [] ∧
    (downloadAndSetup "darwin-arm64" idleEnv
        (FS.mk [pythonDirOf "darwin-arm64"] [])).outcome.exitCode = some 0 :=
  ⟨by decide,
   (downloadAndSetup_skip_when_present "darwin-arm64" darwinArmCfg idleEnv
      (FS.mk [pythonDirOf "darwin-arm64"] []) (by decide) (by decide)).1,
   (downloadAndSetup_skip_when_present "darwin-arm64" darwinArmCfg idleEnv
      (FS.mk [pythonDirOf "darwin-arm64"] []) (by decide) (by decide)).2.2.2.2⟩

/-- Claim C2: for every platform key with no `PLATFORMS` entry,
`downloadAndSetup` prints a diagnostic naming the key and the supported
keys to stderr, exits non-zero, and performs no download, no extraction and
no filesystem change. -/
theorem downloadAndSetup_unsupported_platform (key : String) (env : Env) (fs : FS)
    (h : lookupPlatform key = none) :
    (downloadAndSetup key env fs).stderr =
      ["Unsupported platform: " ++ key,
       "Supported platforms: " ++ supportedKeys] ∧
    (downloadAndSetup key env fs).outcome.exitCode = some 1 ∧
    (downloadAndSetup key env fs).requests = [] ∧
    (downloadAndSetup key env fs).fs = fs ∧
    (downloadAndSetup key env fs).progress = [] := by
  simp [downloadAndSetup, h, RunOutcome.exitCode]

/-- Concrete instance of the C2 theorem at the unsupported key
`plan9-x64`. -/
theorem downloadAndSetup_unsupported_platform_witness :
    lookupPlatform "plan9-x64" = none ∧
    (downloadAndSetup "plan9-x64" idleEnv (FS.mk [] [])).stderr =
      ["Unsupported platform: plan9-x64",
       "Supported platforms: " ++ supportedKeys] ∧
    (downloadAndSetup "plan9-x64" idleEnv (FS.mk [] [])).outcome.exitCode = some 1 :=
  ⟨by decide,
   (downloadAndSetup_unsupported_platform "plan9-x64" idleEnv (FS.mk [] [])
      (by decide)).1,
   (downloadAndSetup_unsupported_platform "plan9-x64" idleEnv (FS.mk [] [])
      (by decide)).2.1⟩

/-- Claim C3: on a 301/302 response carrying a `Location` header, `download`
does not fail: it re-issues the GET against the `Location` value, and the
whole call's trace is the follow-up call's trace behind the first URL — in
particular the overall outcome is exactly the follow-up outcome. -/
theorem download_follows_redirect (server : Server) (url loc : String) (fuel : Nat)
    (hst : (server url).statusCode = 301 ∨ (server url).statusCode = 302)
    (hloc : (server url).location = some loc) :
    download server (fuel + 1) url =
      ⟨url :: (download server fuel loc).requests,
       (download server fuel loc).progress,
       (download server fuel loc).written,
       (download server fuel loc).outcome⟩ ∧
    (download server (fuel + 1) url).outcome = (download server fuel loc).outcome ∧
    (download server (fuel + 1) loc).requests.head? = some loc := by
  have hb : ((server url).statusCode == 302 || (server url).statusCode == 301) = true := by
    rcases hst with h | h <;> simp [h]
  exact ⟨by simp [download, hb, hloc], by simp [download, hb, hloc],
    download_requests_head server fuel loc⟩

/-- Concrete instance of the C3 theorem: a 302 from `https://a` to
`https://b` is followed rather than failed. -/
theorem download_follows_redirect_witness :
    (twoStepServer "https://a").statusCode = 302 ∧
    (twoStepServer "https://a").location = some "https://b" ∧
    (download twoStepServer 2 "https://a").outcome =
      (download twoStepServer 1 "https://b").outcome :=
  ⟨by decide, by decide,
   (download_follows_redirect twoStepServer "https://a" "https://b" 1
      (Or.inr (by decide)) (by decide)).2.1⟩

/-- Claim C4: a terminal response whose status is neither 200 nor a
redirect makes `download` reject with an error whose message contains the
status code, without writing the destination file and without emitting any
progress. -/
theorem download_non_200_rejects (server : Server) (url : String) (fuel : Nat)
    (h200 : (server url).statusCode ≠ 200)
    (h301 : (server url).statusCode ≠ 301)
    (h302 : (server url).statusCode ≠ 302) :
    (download server (fuel + 1) url).outcome =
      .err (.status (server url).statusCode) ∧
    (download server (fuel + 1) url).written = false ∧
    (download server (fuel + 1) url).progress = [] ∧
    (∃ p q, (DLError.status (server url).statusCode).message =
      p ++ toString (server url).statusCode ++ q) := by
  have hb : ((server url).statusCode == 302 || (server url).statusCode == 301) = false := by
    simp [h301, h302]
  have hne : ((server url).statusCode != 200) = true := by
    simp [h200]
  exact ⟨by simp [download, hb, hne], by simp [download, hb, hne],
    by simp [download, hb, hne],
    ⟨"Download failed with status ", "", by simp [DLError.message]⟩⟩

/-- Concrete instance of the C4 theorem at a 503 response. -/
theorem download_non_200_rejects_witness :
    (err503Server "https://u").statusCode = 503 ∧
    (download err503Server 1 "https://u").outcome = .err (.status 503) ∧
    (download err503Server 1 "https://u").written = false :=
  ⟨by decide,
   (download_non_200_rejects err503Server "https://u" 0
      (by decide) (by decide) (by decide)).1,
   (download_non_200_rejects err503Server "https://u" 0
      (by decide) (by decide) (by decide)).2.1⟩

/-- Claim C5: once the pipeline reaches extraction, the archive file is
deleted if and only if extraction succeeds — on success `downloadAndSetup`
unlinks the archive and returns normally; on an extraction error the error
propagates to the top-level handler while the archive remains on disk. -/
theorem downloadAndSetup_archive_cleanup (key : String) (cfg : PlatformConfig)
    (env : Env) (fs : FS) (hk : lookupPlatform key = some cfg)
    (hdir : pythonDirOf key ∉ fs.dirs)
    (hfile : archivePathOf key cfg.url ∉ fs.files)
    (hdl : (download env.server env.fuel cfg.url).outcome = .ok) :
    (env.extractResult = .ok () →
      archivePathOf key cfg.url ∉ (downloadAndSetup key env fs).fs.files ∧
      (downloadAndSetup key env fs).outcome = .success) ∧
    (∀ m, env.extractResult = .error m →
      archivePathOf key cfg.url ∈ (downloadAndSetup key env fs).fs.files ∧
      (downloadAndSetup key env fs).outcome = .failure (.extractFailed m) ∧
      (downloadAndSetup key env fs).stderr = ["❌ Setup failed: " ++ m]) := by
  constructor
  · intro hex
    rw [run_ok_extract_ok key cfg env fs hk hdir hdl hex]
    exact ⟨by simpa [List.erase_cons_head] using hfile, rfl⟩
  · intro m hex
    rw [run_ok_extract_error key cfg env fs m hk hdir hdl hex]
    exact ⟨List.mem_cons_self _ _, rfl, rfl⟩

/-- Concrete instance of the C5 theorem at `linux-x64`: the archive is
gone after a successful run. -/
theorem downloadAndSetup_archive_cleanup_witness :
    okEnv.extractResult = .ok () ∧
    archivePathOf "linux-x64" linuxCfg.url ∉
      (downloadAndSetup "linux-x64" okEnv (FS.mk [] [])).fs.files ∧
    (downloadAndSetup "linux-x64" okEnv (FS.mk [] [])).outcome = .success :=
  ⟨rfl,
   ((downloadAndSetup_archive_cleanup "linux-x64" linuxCfg okEnv (FS.mk [] [])
      (by decide) (by decide) (by decide) (by decide)).1 rfl).1,
   ((downloadAndSetup_archive_cleanup "linux-x64" linuxCfg okEnv (FS.mk [] [])
      (by decide) (by decide) (by decide) (by decide)).1 rfl).2⟩

/-- Claim C6, counterexample: on a 200 response without `Content-Length`
the script still writes a progress line on each chunk (the JS computes
`NaN` and prints `Downloading: NaN%`), so it is false that no percentage
line is reported when the total size is unknown. -/
theorem download_progress_nan_counterexample :
    (noLenServer "https://x").statusCode = 200 ∧
    (noLenServer "https://x").contentLength = none ∧
    (download noLenServer 1 "https://x").progress = [(5, none)] ∧
    (download noLenServer 1 "https://x").progress ≠ [] := by
  exact ⟨rfl, rfl, by decide, by decide⟩

/-- Claim C6 (amended): during a status-200 download a progress line is
written on each received chunk regardless of whether the response carries a
`Content-Length` header; each line reports the cumulative byte count
against the header value when present, and against an unknown total
(rendered `NaN` by the script) when absent. -/
theorem download_progress_every_chunk (server : Server) (url : String) (fuel : Nat)
    (h : (server url).statusCode = 200) :
    (download server (fuel + 1) url).progress =
      progressOf (server url).contentLength (server url).body ∧
    (download server (fuel + 1) url).progress.length = (server url).body.length ∧
    (∀ e ∈ (download server (fuel + 1) url).progress,
      e.2 = (server url).contentLength) := by
  have hstep : download server (fuel + 1) url =
      ⟨[url], progressOf (server url).contentLength (server url).body, true, .ok⟩ := by
    simp [download, h]
  refine ⟨by rw [hstep], ?_, ?_⟩
  · rw [hstep]
    exact progressAux_length _ _ _
  · rw [hstep]
    exact progressAux_total _ _ _

/-- Concrete instance of the amended C6 theorem: two chunks, two progress
lines. -/
theorem download_progress_every_chunk_witness :
    (lenServer "https://x").statusCode = 200 ∧
    (download lenServer 1 "https://x").progress =
      progressOf (some 10) [4, 6] ∧
    (download lenServer 1 "https://x").progress.length = 2 :=
  ⟨rfl,
   (download_progress_every_chunk lenServer "https://x" 0 rfl).1,
   (download_progress_every_chunk lenServer "https://x" 0 rfl).2.1⟩

/-- Claim C7: the redirect recursion has no depth limit or revisit guard —
against a server all of whose responses are redirects the recursion
outlives every fuel bound (never terminates), and it terminates exactly
when the chain of followed locations eventually reaches a response that is
not a followable redirect. -/
theorem download_redirect_no_depth_limit (server : Server) (url : String) (fuel : Nat) :
    ((∀ u, isRedirect (server u) = true) →
      (download server fuel url).outcome = .diverge) ∧
    ((download server fuel url).outcome ≠ .diverge ↔
      ∃ n, n < fuel ∧ isRedirect (server (follow server url n)) = false) := by
  constructor
  · intro h
    by_contra hne
    obtain ⟨n, _, hfalse⟩ := (download_terminates_iff server fuel url).mp hne
    rw [h (follow server url n)] at hfalse
    exact Bool.noConfusion hfalse
  · exact download_terminates_iff server fuel url

/-- Concrete instances of the C7 theorem: a self-redirecting server
exhausts any fuel, a server whose chain reaches a 200 terminates. -/
theorem download_redirect_no_depth_limit_witness :
    (download loopServer 5 "https://loop").outcome = .diverge ∧
    (download twoStepServer 2 "https://a").outcome ≠ .diverge :=
  ⟨(download_redirect_no_depth_limit loopServer "https://loop" 5).1 (fun _ => rfl),
   (download_redirect_no_depth_limit twoStepServer "https://a" 2).2.mpr
     ⟨1, by decide, by decide⟩⟩

/-- Claim C8: `extractTarGz` creates the destination directory and unpacks
the archive with one leading path component stripped from every entry, so
for an archive with a single top-level directory the destination's contents
are the contents of that top-level directory (the spec-side description
`topLevelContents`) rather than the top-level directory itself. -/
theorem extractTarGz_strips_top_level (fs : FS) (archive : List TarEntry)
    (destDir d : String) (h : ∀ e ∈ archive, e.path.head? = some d) :
    destDir ∈ (extractTarGz fs archive destDir).dirs ∧
    (extractTarGz fs archive destDir).files =
      (topLevelContents d archive).map
        (fun pc => destDir ++ "/" ++ String.intercalate "/" pc.1) ++ fs.files := by
  refine ⟨List.mem_cons_self _ _, ?_⟩
  simp only [extractTarGz]
  rw [tarStrip1_eq_topLevelContents destDir d archive h]

/-- Concrete instance of the C8 theorem on the fixture archive. -/
theorem extractTarGz_strips_top_level_witness :
    "out" ∈ (extractTarGz (FS.mk [] []) sampleArchive "out").dirs ∧
    (extractTarGz (FS.mk [] []) sampleArchive "out").files =
      (topLevelContents "python" sampleArchive).map
        (fun pc => "out" ++ "/" ++ String.intercalate "/" pc.1) ++ (FS.mk [] []).files :=
  extractTarGz_strips_top_level (FS.mk [] []) sampleArchive "out" "python" (by decide)

/-- Claim C9: every `PLATFORMS` entry carries a non-empty https URL and an
archive type that is `tar.gz` or `zip`; consequently, for a key present in
the table, no run of `downloadAndSetup` can end in the
"Unsupported archive type" branch. -/
theorem platforms_wellformed_no_unsupported_archive :
    (∀ p ∈ PLATFORMS, p.2.url ≠ "" ∧ isHttpsUrl p.2.url = true ∧
      (p.2.type = "tar.gz" ∨ p.2.type = "zip")) ∧
    (∀ (key : String) (cfg : PlatformConfig) (env : Env) (fs : FS) (t : String),
      lookupPlatform key = some cfg →
      (downloadAndSetup key env fs).outcome ≠ .failure (.unsupportedArchive t)) := by
  constructor
  · decide
  · intro key cfg env fs t hk
    by_cases hdir : pythonDirOf key ∈ fs.dirs
    · rw [skip_run_eq key cfg env fs hk hdir]
      simp
    · cases hout : (download env.server env.fuel cfg.url).outcome with
      | diverge => simp [downloadAndSetup, hk, hdir, hout]
      | err e => simp [downloadAndSetup, hk, hdir, hout]
      | ok =>
        cases hex : env.extractResult with
        | error m =>
          rw [run_ok_extract_error key cfg env fs m hk hdir hout hex]
          simp
        | ok u =>
          cases u
          rw [run_ok_extract_ok key cfg env fs hk hdir hout hex]
          simp

/-- Concrete instance of the C9 theorem: the head entry is well-formed and
a `darwin-x64` run cannot fail with an unsupported archive type. -/
theorem platforms_wellformed_no_unsupported_archive_witness :
    (darwinArmCfg.url ≠ "" ∧ isHttpsUrl darwinArmCfg.url = true ∧
      (darwinArmCfg.type = "tar.gz" ∨ darwinArmCfg.type = "zip")) ∧
    (downloadAndSetup "darwin-x64" okEnv (FS.mk [] [])).outcome ≠
      .failure (.unsupportedArchive "tar.gz") :=
  ⟨platforms_wellformed_no_unsupported_archive.1 ("darwin-arm64", darwinArmCfg)
      (by decide),
   platforms_wellformed_no_unsupported_archive.2 "darwin-x64" darwinX64Cfg okEnv
      (FS.mk [] []) "tar.gz" (by decide)⟩

/-- Claim C10: the skip check of `downloadAndSetup` tests only the
existence of the destination directory, which the extractors create before
unpacking; so when extraction fails after that directory was created, the
failing run leaves the directory behind and every subsequent run for the
same key skips the whole pipeline — no network request, no filesystem
change — and exits 0. -/
theorem skip_after_failed_extraction (key : String) (cfg : PlatformConfig)
    (env : Env) (fs : FS) (m : String)
    (hk : lookupPlatform key = some cfg)
    (hdir : pythonDirOf key ∉ fs.dirs)
    (hdl : (download env.server env.fuel cfg.url).outcome = .ok)
    (hex : env.extractResult = .error m) :
    (downloadAndSetup key env fs).outcome = .failure (.extractFailed m) ∧
    pythonDirOf key ∈ (downloadAndSetup key env fs).fs.dirs ∧
    (∀ env₂ : Env,
      (downloadAndSetup key env₂ (downloadAndSetup key env fs).fs).outcome.exitCode =
        some 0 ∧
      (downloadAndSetup key env₂ (downloadAndSetup key env fs).fs).requests = [] ∧
      (downloadAndSetup key env₂ (downloadAndSetup key env fs).fs).fs =
        (downloadAndSetup key env fs).fs ∧
      (downloadAndSetup key env₂ (downloadAndSetup key env fs).fs).stdout =
        ["Python already exists at " ++ pythonDirOf key]) := by
  have h1 := run_ok_extract_error key cfg env fs m hk hdir hdl hex
  have hmem : pythonDirOf key ∈ (downloadAndSetup key env fs).fs.dirs := by
    rw [h1]
    exact List.mem_cons_self _ _
  refine ⟨by rw [h1], hmem, ?_⟩
  intro env₂
  rw [skip_run_eq key cfg env₂ (downloadAndSetup key env fs).fs hk hmem]
  exact ⟨rfl, rfl, rfl, rfl⟩

/-- Concrete instance of the C10 theorem at `linux-x64`: after a failed
extraction, a rerun skips with exit code 0 and no request. -/
theorem skip_after_failed_extraction_witness :
    (downloadAndSetup "linux-x64" errEnv (FS.mk [] [])).outcome =
      .failure (.extractFailed "disk full") ∧
    (downloadAndSetup "linux-x64" okEnv
        (downloadAndSetup "linux-x64" errEnv (FS.mk [] [])).fs).outcome.exitCode =
      some 0 ∧
    (downloadAndSetup "linux-x64" okEnv
        (downloadAndSetup "linux-x64" errEnv (FS.mk [] [])).fs).requests = [] :=
  ⟨(skip_after_failed_extraction "linux-x64" linuxCfg errEnv (FS.mk [] []) "disk full"
      (by decide) (by decide) (by decide) rfl).1,
   ((skip_after_failed_extraction "linux-x64" linuxCfg errEnv (FS.mk [] []) "disk full"
      (by decide) (by decide) (by decide) rfl).2.2 okEnv).1,
   ((skip_after_failed_extraction "linux-x64" linuxCfg errEnv (FS.mk [] []) "disk full"
      (by decide) (by decide) (by decide) rfl).2.2 okEnv).2.1⟩

example :
    (download (fun _ => ⟨200, none, some 10, [4, 6]⟩) 1 "https://x").progress =
      [(4, some 10), (10, some 10)] := by decide

example :
    (download (fun _ => ⟨302, some "https://y", none, []⟩) 3 "https://x").outcome =
      .diverge := by decide

example :
    (download (fun u => if u == "https://x" then ⟨302, some "https://y", none, []⟩
                        else ⟨404, none, none, []⟩) 3 "https://x").outcome =
      .err (.status 404) := by decide
